import Mathlib

/-!
Shallow embedding of the Recapify media-processing pipeline
(`src/main.py` and `src/streamlit_app.py`).

The external world (ffmpeg, the whisper.cpp binary, the Ollama HTTP
endpoint) is modelled by an explicit oracle (`World`, `NetOutcome`); the
local disk is an explicit map from paths to contents (`FS`).  Python
exceptions are modelled with `Except PyExc`.  The streaming-JSON
accumulation loop of `summarize_with_model` is embedded together with an
executable JSON parser standing for Python's `json.loads`.
-/

namespace Recapify

/-! ## File-system model -/

/-- A file system: a map from paths to file contents. -/
def FS : Type := String → Option String

/-- The empty file system. -/
def FS.empty : FS := fun _ => none

/-- Create or overwrite the file at `p` with content `c`. -/
def FS.write (fs : FS) (p c : String) : FS :=
  fun q => if q = p then some c else fs q

/-- Delete the file at `p` (`os.remove` / `os.unlink`). -/
def FS.remove (fs : FS) (p : String) : FS :=
  fun q => if q = p then none else fs q

/-- Read the file at `p`, if present. -/
def FS.read (fs : FS) (p : String) : Option String := fs p

/-- Whether a file exists at `p` (`os.path.exists`). -/
def FS.pathExists (fs : FS) (p : String) : Bool := (fs p).isSome

/-! ## JSON values and a parser modelling Python's json.loads -/

/-- A parsed JSON value.  Numbers keep their source lexeme: no claim
inspects a numeric value, so this avoids committing to a float model. -/
inductive JValue : Type where
  | null : JValue
  | bool (b : Bool) : JValue
  | num (raw : String) : JValue
  | str (s : String) : JValue
  | arr (elems : List JValue) : JValue
  | obj (members : List (String × JValue)) : JValue

/-- JSON whitespace. -/
def isJsonWs (c : Char) : Bool :=
  c = ' ' || c = '\t' || c = '\n' || c = '\r'

/-- Skip leading JSON whitespace. -/
def skipWs : List Char → List Char
  | [] => []
  | c :: cs => if isJsonWs c then skipWs cs else c :: cs

/-- Value of a hexadecimal digit. -/
def hexVal (c : Char) : Option Nat :=
  if '0' ≤ c ∧ c ≤ '9' then some (c.toNat - '0'.toNat)
  else if 'a' ≤ c ∧ c ≤ 'f' then some (c.toNat - 'a'.toNat + 10)
  else if 'A' ≤ c ∧ c ≤ 'F' then some (c.toNat - 'A'.toNat + 10)
  else none

/-- Parse the body of a JSON string after the opening quote; returns the
decoded string and the remaining characters after the closing quote. -/
def parseStringBody (fuel : Nat) (cs : List Char) (acc : List Char) :
    Option (String × List Char) :=
  match fuel with
  | 0 => none
  | fuel + 1 =>
    match cs with
    | [] => none
    | c :: rest =>
      if c = '"' then some (String.mk acc.reverse, rest)
      else if c = '\\' then
        match rest with
        | [] => none
        | e :: rest2 =>
          if e = '"' then parseStringBody fuel rest2 ('"' :: acc)
          else if e = '\\' then parseStringBody fuel rest2 ('\\' :: acc)
          else if e = '/' then parseStringBody fuel rest2 ('/' :: acc)
          else if e = 'b' then parseStringBody fuel rest2 ('\x08' :: acc)
          else if e = 'f' then parseStringBody fuel rest2 ('\x0c' :: acc)
          else if e = 'n' then parseStringBody fuel rest2 ('\n' :: acc)
          else if e = 'r' then parseStringBody fuel rest2 ('\r' :: acc)
          else if e = 't' then parseStringBody fuel rest2 ('\t' :: acc)
          else if e = 'u' then
            match rest2 with
            | h1 :: h2 :: h3 :: h4 :: rest3 =>
              match hexVal h1, hexVal h2, hexVal h3, hexVal h4 with
              | some a, some b, some c2, some d =>
                let n := ((a * 16 + b) * 16 + c2) * 16 + d
                if n.isValidChar then
                  parseStringBody fuel rest3 (Char.ofNat n :: acc)
                else none
              | _, _, _, _ => none
            | _ => none
          else none
      else parseStringBody fuel rest (c :: acc)

/-- Whether `c` is a decimal digit. -/
def isDig (c : Char) : Bool := '0' ≤ c && c ≤ '9'

/-- Split off a maximal run of decimal digits. -/
def takeDigits : List Char → List Char × List Char
  | [] => ([], [])
  | c :: cs =>
    if isDig c then
      let (ds, rest) := takeDigits cs
      (c :: ds, rest)
    else ([], c :: cs)

/-- Parse a JSON number starting at `cs` (sign already included); returns
the lexeme and the remainder. -/
def parseNumber (cs : List Char) : Option (List Char × List Char) :=
  let (neg, cs1) :=
    match cs with
    | '-' :: rest => (['-'], rest)
    | _ => (([] : List Char), cs)
  match cs1 with
  | [] => none
  | c :: _ =>
    if ¬ isDig c then none
    else
      let (intPart, cs2) :=
        match cs1 with
        | '0' :: rest => (['0'], rest)
        | _ => takeDigits cs1
      let (fracPart, cs3) :=
        match cs2 with
        | '.' :: rest =>
          let (ds, r) := takeDigits rest
          if ds.isEmpty then ([('?' : Char)], rest) else ('.' :: ds, r)
        | _ => (([] : List Char), cs2)
      if fracPart = ['?'] then none
      else
        let (expPart, cs4) :=
          match cs3 with
          | e :: rest =>
            if e = 'e' ∨ e = 'E' then
              let (sgn, rest2) :=
                match rest with
                | s :: r2 => if s = '+' ∨ s = '-' then ([s], r2) else (([] : List Char), rest)
                | [] => (([] : List Char), rest)
              let (ds, r) := takeDigits rest2
              if ds.isEmpty then ([('?' : Char)], rest) else (e :: (sgn ++ ds), r)
            else (([] : List Char), cs3)
          | [] => (([] : List Char), cs3)
        if expPart = ['?'] then none
        else some (neg ++ intPart ++ fracPart ++ expPart, cs4)

mutual

/-- Parse one JSON value (fuel-bounded recursive descent). -/
def parseValue : Nat → List Char → Option (JValue × List Char)
  | 0, _ => none
  | fuel + 1, cs =>
    match skipWs cs with
    | [] => none
    | c :: rest =>
      if c = '"' then
        match parseStringBody (fuel + 1) rest [] with
        | some (s, r) => some (.str s, r)
        | none => none
      else if c = '{' then parseObjMembers fuel rest true
      else if c = '[' then parseArrItems fuel rest true
      else if c = 't' then
        if "rue".data.isPrefixOf rest then some (.bool true, rest.drop 3) else none
      else if c = 'f' then
        if "alse".data.isPrefixOf rest then some (.bool false, rest.drop 4) else none
      else if c = 'n' then
        if "ull".data.isPrefixOf rest then some (.null, rest.drop 3) else none
      else if c = 'N' then
        if "aN".data.isPrefixOf rest then some (.num "NaN", rest.drop 2) else none
      else if c = 'I' then
        if "nfinity".data.isPrefixOf rest then some (.num "Infinity", rest.drop 7) else none
      else if c = '-' ∧ (rest.headD ' ') = 'I' then
        if "Infinity".data.isPrefixOf rest then some (.num "-Infinity", rest.drop 8) else none
      else
        match parseNumber (c :: rest) with
        | some (lex, r) => some (.num (String.mk lex), r)
        | none => none

/-- Parse the members of a JSON object after the opening brace.  `first`
is true before the first member has been read. -/
def parseObjMembers : Nat → List Char → Bool → Option (JValue × List Char)
  | 0, _, _ => none
  | fuel + 1, cs, first =>
    match skipWs cs with
    | [] => none
    | c :: rest =>
      if c = '}' ∧ first then some (.obj [], rest)
      else
        match goMembers fuel (c :: rest) [] first with
        | some (kvs, r) => some (.obj kvs, r)
        | none => none

/-- Read object members (key, colon, value) separated by commas, until
the closing brace. -/
def goMembers : Nat → List Char → List (String × JValue) → Bool →
    Option (List (String × JValue) × List Char)
  | 0, _, _, _ => none
  | fuel + 1, cs, acc, first =>
    let cs0 := if first then cs else
      match skipWs cs with
      | ',' :: r => r
      | _ => ['\x00']
    if cs0 = ['\x00'] ∧ ¬ first then none
    else
      match skipWs cs0 with
      | '"' :: rest =>
        match parseStringBody (fuel + 1) rest [] with
        | some (k, r1) =>
          match skipWs r1 with
          | ':' :: r2 =>
            match parseValue fuel r2 with
            | some (v, r3) =>
              match skipWs r3 with
              | '}' :: r4 => some ((acc ++ [(k, v)]), r4)
              | ',' :: r4 => goMembers fuel (',' :: r4) (acc ++ [(k, v)]) false
              | _ => none
            | none => none
          | _ => none
        | none => none
      | _ => none

/-- Parse the items of a JSON array after the opening bracket. -/
def parseArrItems : Nat → List Char → Bool → Option (JValue × List Char)
  | 0, _, _ => none
  | fuel + 1, cs, first =>
    match skipWs cs with
    | [] => none
    | c :: rest =>
      if c = ']' ∧ first then some (.arr [], rest)
      else
        match goItems fuel (c :: rest) [] with
        | some (xs, r) => some (.arr xs, r)
        | none => none

/-- Read array items separated by commas, until the closing bracket. -/
def goItems : Nat → List Char → List JValue →
    Option (List JValue × List Char)
  | 0, _, _ => none
  | fuel + 1, cs, acc =>
    match parseValue fuel cs with
    | some (v, r1) =>
      match skipWs r1 with
      | ']' :: r2 => some (acc ++ [v], r2)
      | ',' :: r2 => goItems fuel r2 (acc ++ [v])
      | _ => none
    | none => none

end

/-- Model of Python's json.loads: parse one value, allowing surrounding
whitespace, and require the input to be fully consumed. -/
def json_loads (s : String) : Option JValue :=
  match parseValue (s.length + 1) s.data with
  | some (v, rest) => if (skipWs rest).isEmpty then some v else none
  | none => none

/-- Lookup in a parsed JSON object, modelling Python's dict: with
duplicate keys the last occurrence wins. -/
def jget (kvs : List (String × JValue)) (k : String) : Option JValue :=
  (kvs.reverse.find? (fun kv => kv.1 = k)).map (fun kv => kv.2)

/-- Truthiness of a number lexeme: nonzero iff the mantissa (the part
before any exponent marker) has a nonzero digit. -/
def numTruthy (raw : String) : Bool :=
  (raw.data.takeWhile (fun c => c != 'e' && c != 'E')).any
    (fun c => '1' ≤ c && c ≤ '9')

/-- Python truthiness of a JSON value, as used by `if json_line.get("done", False):`. -/
def truthy : JValue → Bool
  | .null => false
  | .bool b => b
  | .num raw => numTruthy raw
  | .str s => s != ""
  | .arr elems => !elems.isEmpty
  | .obj members => !members.isEmpty

/-! ## Python exceptions and the HTTP world oracle -/

/-- The Python exceptions the embedded code can raise or catch. -/
inductive PyExc : Type where
  | calledProcessError : PyExc
  | jsonDecodeError : PyExc
  | attributeError : PyExc
  | typeError : PyExc
  | fileNotFoundError : PyExc
deriving DecidableEq, Repr

/-- The outcome of `requests.post(... stream=True ...)`: the status code,
the decoded lines yielded by `response.iter_lines()`, and `response.text`. -/
structure HTTPResponse where
  status_code : Nat
  body_lines : List String
  text : String

/-- Either the request raised `requests.exceptions.RequestException`, or a
response arrived. -/
inductive NetOutcome : Type where
  | requestException (msg : String) : NetOutcome
  | response (r : HTTPResponse) : NetOutcome

/-! ## The streaming accumulation loop of summarize_with_model -/

/-- The `for line in response.iter_lines()` loop: skip falsy (empty)
lines, parse each line as JSON, append the value of the "response" key
(default empty string), and stop when the "done" value is truthy.
A line that parses to a non-object raises AttributeError at `.get`;
a "response" value that is not a string raises TypeError at `+=`;
a line that fails to parse raises json.JSONDecodeError. -/
def accumLoop : List String → String → Except PyExc String
  | [], acc => .ok acc
  | line :: rest, acc =>
    if line = "" then accumLoop rest acc
    else
      match json_loads line with
      | none => .error .jsonDecodeError
      | some (.obj kvs) =>
        let step : Except PyExc String :=
          match jget kvs "response" with
          | none => .ok acc
          | some (.str s) => .ok (acc ++ s)
          | some _ => .error .typeError
        match step with
        | .error e => .error e
        | .ok acc2 =>
          match jget kvs "done" with
          | none => accumLoop rest acc2
          | some dv => if truthy dv then .ok acc2 else accumLoop rest acc2
      | some _ => .error .attributeError

/-! ## summarize_with_model (src/main.py lines 59-129) -/

/-- The part of main.py's sentinel message that precedes the transcript
preview. -/
def sentinel_preamble_main (context : String) : String :=
  "❌ Ollama Service Unavailable\n\nThis deployment cannot connect to an Ollama server for AI summarization.\n\n📝 **Raw Transcript Available**: You can still download the full transcript below.\n\n🔧 **To enable AI summarization**:\n1. Deploy your own Ollama server\n2. Set the OLLAMA_SERVER_URL environment variable\n3. Redeploy this application\n\n**Context provided**: "
    ++ (if context = "" then "None" else context)
    ++ "\n\n**Transcript preview** (first 500 characters):\n"

/-- The early-return message of `summarize_with_model` in main.py for the
sentinel model identifier "ollama-not-available": the preview is
`text[:500]` with "..." appended exactly when `len(text) > 500`. -/
def sentinel_message_main (context text : String) : String :=
  sentinel_preamble_main context
    ++ String.mk (text.data.take 500)
    ++ (if text.length > 500 then "..." else "")

/-- The part of streamlit_app.py's sentinel message that precedes the
transcript preview (lines 101-114). -/
def sentinel_preamble_st (context : String) : String :=
  "❌ **Ollama Service Unavailable**\n\nThis deployment cannot connect to an Ollama server for AI summarization.\n\n📝 **Raw Transcript Available**: You can download the full transcript below.\n\n🔧 **To enable AI summarization**:\n1. Deploy your own Ollama server\n2. Set the OLLAMA_SERVER_URL environment variable\n3. Redeploy this application\n\n**Context provided**: "
    ++ (if context = "" then "None" else context)
    ++ "\n\n**Transcript preview** (first 500 characters):\n"

/-- The corresponding message in streamlit_app.py (lines 101-115). -/
def sentinel_message_st (context text : String) : String :=
  sentinel_preamble_st context
    ++ String.mk (text.data.take 500)
    ++ (if text.length > 500 then "..." else "")

/-- The fixed prompt template sent to the generation endpoint. -/
def build_prompt (context text : String) : String :=
  "You are given a transcript from a meeting, along with some optional context.\n    \n    Context: "
    ++ (if context = "" then "No additional context provided." else context)
    ++ "\n    \n    The transcript is as follows:\n    \n    "
    ++ text
    ++ "\n    \n    Please summarize the transcript."

/-- The message returned when the HTTP status is not 200 (identical in
both front-end files). -/
def server_error_message (llm_model_name body : String) : String :=
  "❌ Error: Failed to summarize with model " ++ llm_model_name
    ++ ". Server returned: " ++ body
    ++ "\n\nTranscript is still available for download below."

/-- The message returned when the request raises RequestException
(identical in both front-end files). -/
def connect_error_message (e : String) : String :=
  "❌ Error: Cannot connect to Ollama server: " ++ e
    ++ "\n\nTranscript is still available for download below."

/-- The message returned when a streamed line fails to parse as JSON
(identical in both front-end files). -/
def parse_error_message (body : String) : String :=
  "Failed to parse the response from the server. Raw response: " ++ body

/-- summarize_with_model from src/main.py: sentinel short-circuit, then
the streaming request against the `net` oracle. -/
def summarize_with_model (net : NetOutcome) (llm_model_name context text : String) :
    Except PyExc String :=
  if llm_model_name = "ollama-not-available" then
    .ok (sentinel_message_main context text)
  else
    match net with
    | .requestException e => .ok (connect_error_message e)
    | .response r =>
      if r.status_code = 200 then
        match accumLoop r.body_lines "" with
        | .ok s => .ok s
        | .error .jsonDecodeError => .ok (parse_error_message r.text)
        | .error e => .error e
      else .ok (server_error_message llm_model_name r.text)

/-- summarize_with_model from src/streamlit_app.py: identical except for
the sentinel message's wording. -/
def summarize_with_model_st (net : NetOutcome) (llm_model_name context text : String) :
    Except PyExc String :=
  if llm_model_name = "ollama-not-available" then
    .ok (sentinel_message_st context text)
  else
    match net with
    | .requestException e => .ok (connect_error_message e)
    | .response r =>
      if r.status_code = 200 then
        match accumLoop r.body_lines "" with
        | .ok s => .ok s
        | .error .jsonDecodeError => .ok (parse_error_message r.text)
        | .error e => .error e
      else .ok (server_error_message llm_model_name r.text)

/-! ## Path helpers (os.path) -/

/-- Index of the last occurrence of `c` in `l`, if any. -/
def lastIdxOf (c : Char) : List Char → Option Nat
  | [] => none
  | a :: as =>
    match lastIdxOf c as with
    | some i => some (i + 1)
    | none => if a = c then some 0 else none

/-- The index where `os.path.splitext` cuts: the last dot after the last
slash, unless every character between them is a dot; when there is no cut
the whole string is the root and the index is its length. -/
def splitIdx (p : String) : Nat :=
  match lastIdxOf '.' p.data with
  | none => p.data.length
  | some di =>
    let fi : Nat :=
      match lastIdxOf '/' p.data with
      | none => 0
      | some si => si + 1
    if fi ≤ di && ((p.data.drop fi).take (di - fi)).any (fun ch => ch != '.') then di
    else p.data.length

/-- Model of `os.path.splitext` (posix). -/
def splitext (p : String) : String × String :=
  (String.mk (p.data.take (splitIdx p)), String.mk (p.data.drop (splitIdx p)))

/-- Model of `os.path.basename` (posix): everything after the last slash. -/
def basename (p : String) : String :=
  match lastIdxOf '/' p.data with
  | none => p
  | some si => String.mk (p.data.drop (si + 1))

/-- The derived path of the normalized audio file:
`f"{os.path.splitext(audio_file_path)[0]}_converted.wav"`. -/
def output_wav_file (audio_file_path : String) : String :=
  (splitext audio_file_path).1 ++ "_converted.wav"

/-! ## World oracle for the external tools -/

/-- One pipeline invocation's external world: whether ffmpeg succeeds and
what it writes, whether whisper.cpp succeeds and what it writes, and the
outcome of the summarization HTTP request. -/
structure World where
  ffmpegOk : Bool
  wavContent : String
  whisperOk : Bool
  whisperOut : String
  net : NetOutcome

/-! ## Pipelines -/

/-- preprocess_audio_file from src/main.py (lines 132-148):
`subprocess.run(cmd, shell=True, check=True)` raises CalledProcessError
when ffmpeg exits non-zero or is absent (the shell exits 127). -/
def preprocess_audio_file (w : World) (fs : FS) (audio_file_path : String) :
    Except PyExc String × FS :=
  let out := output_wav_file audio_file_path
  if w.ffmpegOk then (.ok out, fs.write out w.wavContent)
  else (.error .calledProcessError, fs)

/-- preprocess_audio_file from src/streamlit_app.py (lines 157-167): the
CalledProcessError is caught and None is returned instead. -/
def preprocess_audio_file_st (w : World) (fs : FS) (audio_file_path : String) :
    Option String × FS :=
  let out := output_wav_file audio_file_path
  if w.ffmpegOk then (some out, fs.write out w.wavContent)
  else (none, fs)

/-- translate_and_summarize from src/main.py (lines 151-199).  The shell
redirection `> output.txt` creates the capture file even when the whisper
binary fails; `check=True` then raises CalledProcessError, skipping both
the transcript write and the cleanup. -/
def translate_and_summarize (w : World) (fs : FS)
    (audio_file_path context whisper_model_name llm_model_name : String) :
    Except PyExc (String × String) × FS :=
  match preprocess_audio_file w fs audio_file_path with
  | (.error e, fs1) => (.error e, fs1)
  | (.ok audio_file_wav, fs1) =>
    if w.whisperOk then
      let fs2 := fs1.write "output.txt" w.whisperOut
      match fs2.read "output.txt" with
      | none => (.error .fileNotFoundError, fs2)
      | some transcript =>
        let fs3 := fs2.write "transcript.txt" transcript
        match summarize_with_model w.net llm_model_name context transcript with
        | .error e => (.error e, fs3)
        | .ok summary =>
          let fs4 := (fs3.remove audio_file_wav).remove "output.txt"
          (.ok (summary, "transcript.txt"), fs4)
    else (.error .calledProcessError, fs1.write "output.txt" "")

/-- The fallback message of transcribe_audio in src/streamlit_app.py
(lines 197-209) when whisper.cpp cannot run. -/
def whisper_unavailable_message (audio_file_path whisper_model_name : String) : String :=
  "🔧 **Whisper.cpp Not Available in This Deployment**\n\nThis Streamlit deployment doesn't have whisper.cpp compiled. \n\n**To enable transcription:**\n1. Deploy with a custom Docker container that builds whisper.cpp\n2. Use OpenAI Whisper API instead\n3. Use a pre-built whisper service\n\n**Audio file received:** "
    ++ basename audio_file_path
    ++ "\n**Model requested:** " ++ whisper_model_name
    ++ "\n\nFor a working demo, try the Railway deployment with Docker."

/-- transcribe_audio from src/streamlit_app.py (lines 169-213): on
conversion failure returns None; on engine failure returns the fallback
message without removing the temporary files; on success reads the
capture file, removes both temporaries and returns the transcript. -/
def transcribe_audio (w : World) (fs : FS)
    (audio_file_path whisper_model_name : String) :
    Except PyExc (Option String) × FS :=
  match preprocess_audio_file_st w fs audio_file_path with
  | (none, fs1) => (.ok none, fs1)
  | (some audio_file_wav, fs1) =>
    if w.whisperOk then
      let fs2 := fs1.write "output.txt" w.whisperOut
      match fs2.read "output.txt" with
      | none => (.error .fileNotFoundError, fs2)
      | some transcript =>
        (.ok (some transcript), (fs2.remove audio_file_wav).remove "output.txt")
    else
      (.ok (some (whisper_unavailable_message audio_file_path whisper_model_name)),
        fs1.write "output.txt" "")

/-- The processing block of main in src/streamlit_app.py (lines 269-316):
transcribe, and when the transcript is truthy write transcript.txt,
summarize, then unlink the uploaded temporary and transcript.txt. -/
def streamlit_process (w : World) (fs : FS)
    (tmp_file_path context whisper_model llm_model : String) :
    Except PyExc (Option (String × String)) × FS :=
  match transcribe_audio w fs tmp_file_path whisper_model with
  | (.error e, fs1) => (.error e, fs1)
  | (.ok none, fs1) => (.ok none, fs1)
  | (.ok (some transcript), fs1) =>
    if transcript = "" then (.ok none, fs1)
    else
      let fs2 := fs1.write "transcript.txt" transcript
      match summarize_with_model_st w.net llm_model context transcript with
      | .error e => (.error e, fs2)
      | .ok summary =>
        let fs3 := fs2.remove tmp_file_path
        let fs4 := if fs3.pathExists "transcript.txt" then fs3.remove "transcript.txt" else fs3
        (.ok (some (summary, transcript)), fs4)

/-! ## Substring containment -/

/-- Whether `needle` occurs contiguously inside `hay`. -/
def strContains (hay needle : String) : Bool :=
  (List.range (hay.data.length + 1)).any
    (fun i => needle.data.isPrefixOf (hay.data.drop i))

/-! ## Helper lemmas: file system -/

theorem FS.read_write_self (fs : FS) (p c : String) : (fs.write p c).read p = some c := by
  simp [FS.write, FS.read]

theorem FS.read_write_ne (fs : FS) (p c q : String) (h : q ≠ p) :
    (fs.write p c).read q = fs.read q := by
  simp [FS.write, FS.read, h]

theorem FS.pathExists_write_self (fs : FS) (p c : String) :
    (fs.write p c).pathExists p = true := by
  simp [FS.pathExists, FS.write]

theorem FS.pathExists_write_ne (fs : FS) (p c q : String) (h : q ≠ p) :
    (fs.write p c).pathExists q = fs.pathExists q := by
  simp [FS.pathExists, FS.write, h]

theorem FS.pathExists_remove_self (fs : FS) (p : String) :
    (fs.remove p).pathExists p = false := by
  simp [FS.pathExists, FS.remove]

theorem FS.pathExists_remove_ne (fs : FS) (p q : String) (h : q ≠ p) :
    (fs.remove p).pathExists q = fs.pathExists q := by
  simp [FS.pathExists, FS.remove, h]

theorem FS.read_remove_ne (fs : FS) (p q : String) (h : q ≠ p) :
    (fs.remove p).read q = fs.read q := by
  simp [FS.remove, FS.read, h]

/-! ## Helper lemmas: strings and substrings -/

theorem isPrefixOf_append_self (l m : List Char) : l.isPrefixOf (l ++ m) = true := by
  induction l with
  | nil => simp [List.isPrefixOf]
  | cons a as ih => simp [List.isPrefixOf, ih]

/-- A string of the shape `a ++ n ++ b` contains `n`. -/
theorem strContains_parts (a n b : String) : strContains (a ++ n ++ b) n = true := by
  have hdata : (a ++ n ++ b).data = a.data ++ (n.data ++ b.data) := by
    rw [String.data_append, String.data_append, List.append_assoc]
  rw [strContains, List.any_eq_true]
  refine ⟨a.data.length, List.mem_range.mpr ?_, ?_⟩
  · rw [hdata, List.length_append, List.length_append]; omega
  · rw [hdata, List.drop_left]; exact isPrefixOf_append_self _ _

/-- Every string contains the empty string. -/
theorem strContains_empty_needle (h : String) : strContains h "" = true := by
  rw [strContains, List.any_eq_true]
  refine ⟨0, List.mem_range.mpr (Nat.succ_pos _), ?_⟩
  show ([] : List Char).isPrefixOf _ = true
  simp [List.isPrefixOf]

theorem append_ne_empty_left (a b : String) (h : a ≠ "") : a ++ b ≠ "" := by
  intro heq
  apply h
  have hd := congrArg String.data heq
  rw [String.data_append] at hd
  exact String.ext (List.append_eq_nil.mp hd).1

/-! ## Helper lemmas: path derivation -/

theorem lastIdxOf_get (c : Char) (l : List Char) (i : Nat)
    (h : lastIdxOf c l = some i) : l[i]? = some c := by
  induction l generalizing i with
  | nil => simp [lastIdxOf] at h
  | cons a as ih =>
    rw [lastIdxOf] at h
    cases hrec : lastIdxOf c as with
    | some j =>
      rw [hrec] at h
      simp only [Option.some.injEq] at h
      subst h
      simpa using ih j hrec
    | none =>
      rw [hrec] at h
      by_cases hac : a = c
      · rw [if_pos hac] at h
        injection h with h0
        subst h0
        simp [hac]
      · rw [if_neg hac] at h
        exact absurd h (by simp)

/-- The root and extension of splitext reassemble to the input. -/
theorem splitext_append (p : String) : (splitext p).1 ++ (splitext p).2 = p := by
  apply String.ext
  rw [splitext, String.data_append]
  exact List.take_append_drop (splitIdx p) p.data

/-- The extension of splitext is empty or starts with a dot. -/
theorem splitext_snd_head (p : String) :
    (splitext p).2 = "" ∨ (splitext p).2.data.head? = some '.' := by
  rw [splitext, splitIdx]
  cases hd : lastIdxOf '.' p.data with
  | none =>
    left
    apply String.ext
    simp [List.drop_length]
  | some di =>
    simp only []
    split
    · right
      show (p.data.drop di).head? = some '.'
      rw [List.head?_drop]
      exact lastIdxOf_get '.' p.data di hd
    · left
      apply String.ext
      simp [List.drop_length]

/-- The derived normalized-audio path is never the input path itself. -/
theorem output_wav_ne_input (p : String) : output_wav_file p ≠ p := by
  intro h
  rw [output_wav_file] at h
  have h2 : (splitext p).1 ++ (splitext p).2 = p := splitext_append p
  have h3 := h.trans h2.symm
  have hd := congrArg String.data h3
  rw [String.data_append, String.data_append] at hd
  have hcan : ("_converted.wav" : String).data = (splitext p).2.data :=
    List.append_cancel_left hd
  cases splitext_snd_head p with
  | inl hempty =>
    rw [hempty] at hcan
    exact absurd hcan (by decide)
  | inr hhead =>
    rw [← hcan] at hhead
    exact absurd hhead (by decide)

/-- The derived normalized-audio path is never "transcript.txt". -/
theorem wav_ne_transcript (root : String) : root ++ "_converted.wav" ≠ "transcript.txt" := by
  intro h
  have hd := congrArg String.data h
  rw [String.data_append] at hd
  have hl := congrArg List.length hd
  rw [List.length_append] at hl
  have h14 : ("_converted.wav" : String).data.length = 14 := by decide
  have h14b : ("transcript.txt" : String).data.length = 14 := by decide
  have hroot : root.data = [] := List.length_eq_zero.mp (by omega)
  rw [hroot, List.nil_append] at hd
  exact absurd hd (by decide)

/-- The derived normalized-audio path is never "output.txt". -/
theorem wav_ne_output (root : String) : root ++ "_converted.wav" ≠ "output.txt" := by
  intro h
  have hd := congrArg String.data h
  rw [String.data_append] at hd
  have hl := congrArg List.length hd
  rw [List.length_append] at hl
  have h14 : ("_converted.wav" : String).data.length = 14 := by decide
  have h10 : ("output.txt" : String).data.length = 10 := by decide
  omega

/-- Containment follows from an explicit decomposition. -/
theorem strContains_of_rep (s n : String) (h : ∃ x y, s = x ++ n ++ y) :
    strContains s n = true := by
  obtain ⟨x, y, rfl⟩ := h
  exact strContains_parts x n y

/-! ## Claims -/

/-- C4: for every context string and transcript string,
summarize_with_model called with model identifier "ollama-not-available"
performs no network I/O (its result is independent of the network
oracle), returns a string containing the literal supplied context, whose
tail is the at-most-500-character prefix of the transcript followed by
"..." exactly when the transcript's length exceeds 500 characters and by
nothing otherwise; this holds in both front-end files. -/
theorem C4_sentinel_short_circuit (net net' : NetOutcome) (context text : String) :
    (summarize_with_model net "ollama-not-available" context text
       = summarize_with_model net' "ollama-not-available" context text)
  ∧ (summarize_with_model net "ollama-not-available" context text
       = .ok (sentinel_message_main context text))
  ∧ strContains (sentinel_message_main context text) context = true
  ∧ (sentinel_message_main context text
       = sentinel_preamble_main context ++ String.mk (text.data.take 500)
           ++ (if text.length > 500 then "..." else ""))
  ∧ (String.mk (text.data.take 500)).length ≤ 500
  ∧ (String.mk (text.data.take 500)).data.isPrefixOf text.data = true
  ∧ (summarize_with_model_st net "ollama-not-available" context text
       = .ok (sentinel_message_st context text))
  ∧ strContains (sentinel_message_st context text) context = true
  ∧ (sentinel_message_st context text
       = sentinel_preamble_st context ++ String.mk (text.data.take 500)
           ++ (if text.length > 500 then "..." else "")) := by
  refine ⟨rfl, rfl, ?_, rfl, ?_, ?_, rfl, ?_, rfl⟩
  · by_cases hc : context = ""
    · subst hc; exact strContains_empty_needle _
    · apply strContains_of_rep
      refine ⟨"❌ Ollama Service Unavailable\n\nThis deployment cannot connect to an Ollama server for AI summarization.\n\n📝 **Raw Transcript Available**: You can still download the full transcript below.\n\n🔧 **To enable AI summarization**:\n1. Deploy your own Ollama server\n2. Set the OLLAMA_SERVER_URL environment variable\n3. Redeploy this application\n\n**Context provided**: ",
        "\n\n**Transcript preview** (first 500 characters):\n"
          ++ String.mk (text.data.take 500)
          ++ (if text.length > 500 then "..." else ""), ?_⟩
      rw [sentinel_message_main, sentinel_preamble_main, if_neg hc]
      simp [String.append_assoc]
  · show (text.data.take 500).length ≤ 500
    rw [List.length_take]
    exact Nat.min_le_left _ _
  · have h := isPrefixOf_append_self (text.data.take 500) (text.data.drop 500)
    rwa [List.take_append_drop] at h
  · by_cases hc : context = ""
    · subst hc; exact strContains_empty_needle _
    · apply strContains_of_rep
      refine ⟨"❌ **Ollama Service Unavailable**\n\nThis deployment cannot connect to an Ollama server for AI summarization.\n\n📝 **Raw Transcript Available**: You can download the full transcript below.\n\n🔧 **To enable AI summarization**:\n1. Deploy your own Ollama server\n2. Set the OLLAMA_SERVER_URL environment variable\n3. Redeploy this application\n\n**Context provided**: ",
        "\n\n**Transcript preview** (first 500 characters):\n"
          ++ String.mk (text.data.take 500)
          ++ (if text.length > 500 then "..." else ""), ?_⟩
      rw [sentinel_message_st, sentinel_preamble_st, if_neg hc]
      simp [String.append_assoc]

/-- C5: on the specific frame stream response A done false, response B
done true, response C done false, the accumulation loop returns exactly
"AB": fragments concatenate in arrival order and every frame after the
first done=true frame is ignored; the same result is returned by
summarize_with_model on a 200 response carrying that stream. -/
theorem C5_frames_after_done_ignored :
    accumLoop
      ["\x7b\"response\":\"A\",\"done\":false\x7d",
       "\x7b\"response\":\"B\",\"done\":true\x7d",
       "\x7b\"response\":\"C\",\"done\":false\x7d"] "" = .ok "AB"
  ∧ summarize_with_model
      (.response ⟨200,
        ["\x7b\"response\":\"A\",\"done\":false\x7d",
         "\x7b\"response\":\"B\",\"done\":true\x7d",
         "\x7b\"response\":\"C\",\"done\":false\x7d"], ""⟩)
      "llama3" "ctx" "transcript" = .ok "AB" :=
  ⟨rfl, rfl⟩

/-- C9: for every HTTP response with a non-success status and a
non-sentinel model identifier, summarize_with_model does not raise in
either front-end: it returns an explanatory string that embeds the
literal server response body and the note that the transcript remains
available for download. -/
theorem C9_http_error_embedded (r : HTTPResponse) (llm_model_name context text : String)
    (hm : llm_model_name ≠ "ollama-not-available") (hs : r.status_code ≠ 200) :
    summarize_with_model (.response r) llm_model_name context text
        = .ok (server_error_message llm_model_name r.text)
  ∧ summarize_with_model_st (.response r) llm_model_name context text
        = .ok (server_error_message llm_model_name r.text)
  ∧ strContains (server_error_message llm_model_name r.text) r.text = true
  ∧ strContains (server_error_message llm_model_name r.text)
      "Transcript is still available for download below." = true := by
  have hsplit : ("\n\nTranscript is still available for download below." : String)
      = "\n\n" ++ "Transcript is still available for download below." := by decide
  refine ⟨?_, ?_, ?_, ?_⟩
  · rw [summarize_with_model, if_neg hm]
    simp [hs]
  · rw [summarize_with_model_st, if_neg hm]
    simp [hs]
  · apply strContains_of_rep
    refine ⟨"❌ Error: Failed to summarize with model " ++ llm_model_name
        ++ ". Server returned: ",
      "\n\nTranscript is still available for download below.", ?_⟩
    rw [server_error_message]
  · apply strContains_of_rep
    refine ⟨"❌ Error: Failed to summarize with model " ++ llm_model_name
        ++ ". Server returned: " ++ r.text ++ "\n\n", "", ?_⟩
    rw [server_error_message, hsplit]
    simp [String.append_assoc]

/-- C1 counterexample: when ffmpeg succeeds but the whisper engine fails,
translate_and_summarize in main.py raises CalledProcessError and both
temporary files — the normalized audio file and the raw capture file —
are still present on disk when the invocation returns, refuting cleanup
on the documented transcription-engine-failure path. -/
theorem C1_counterexample :
    ((translate_and_summarize ⟨true, "WAV", false, "", .requestException "down"⟩
        (FS.empty.write "in.mp3" "bytes") "in.mp3" "" "base" "llama3").1
      = .error .calledProcessError)
  ∧ ((translate_and_summarize ⟨true, "WAV", false, "", .requestException "down"⟩
        (FS.empty.write "in.mp3" "bytes") "in.mp3" "" "base" "llama3").2.pathExists
        "in_converted.wav" = true)
  ∧ ((translate_and_summarize ⟨true, "WAV", false, "", .requestException "down"⟩
        (FS.empty.write "in.mp3" "bytes") "in.mp3" "" "base" "llama3").2.pathExists
        "output.txt" = true) :=
  ⟨rfl, rfl, rfl⟩

/-- C1 amended: both temporary files are absent after the invocation on
the success path, where summarization and parse failures are converted
into normal returns, in both front-ends; but on transcription-engine
failure main.py raises and streamlit_app.py returns its placeholder, in
both cases leaving the normalized audio file and the raw capture file on
disk. -/
theorem C1_cleanup_characterization (w : World) (fs : FS)
    (audio_file_path context whisper_model llm_model : String) :
    (w.ffmpegOk = true → w.whisperOk = true →
      (∃ s, summarize_with_model w.net llm_model context w.whisperOut = .ok s) →
      ((translate_and_summarize w fs audio_file_path context whisper_model llm_model).2.pathExists
          (output_wav_file audio_file_path) = false
        ∧ (translate_and_summarize w fs audio_file_path context whisper_model llm_model).2.pathExists
            "output.txt" = false))
  ∧ (w.ffmpegOk = true → w.whisperOk = false →
      ((translate_and_summarize w fs audio_file_path context whisper_model llm_model).1
          = .error .calledProcessError
        ∧ (translate_and_summarize w fs audio_file_path context whisper_model llm_model).2.pathExists
            (output_wav_file audio_file_path) = true
        ∧ (translate_and_summarize w fs audio_file_path context whisper_model llm_model).2.pathExists
            "output.txt" = true))
  ∧ (w.ffmpegOk = true → w.whisperOk = true →
      ((transcribe_audio w fs audio_file_path whisper_model).2.pathExists
          (output_wav_file audio_file_path) = false
        ∧ (transcribe_audio w fs audio_file_path whisper_model).2.pathExists
            "output.txt" = false))
  ∧ (w.ffmpegOk = true → w.whisperOk = false →
      ((transcribe_audio w fs audio_file_path whisper_model).2.pathExists
          (output_wav_file audio_file_path) = true
        ∧ (transcribe_audio w fs audio_file_path whisper_model).2.pathExists
            "output.txt" = true)) := by
  obtain ⟨ff, wc, wo, wout, net⟩ := w
  have hwo2 : output_wav_file audio_file_path ≠ "output.txt" := by
    rw [output_wav_file]; exact wav_ne_output _
  refine ⟨?_, ?_, ?_, ?_⟩
  · intro hff hwh hs
    obtain ⟨s, hs⟩ := hs
    have hff2 : ff = true := hff
    have hwh2 : wo = true := hwh
    subst hff2
    subst hwh2
    simp [translate_and_summarize, preprocess_audio_file, FS.read, FS.write,
      FS.pathExists, FS.remove, hs, hwo2]
  · intro hff hwh
    have hff2 : ff = true := hff
    have hwh2 : wo = false := hwh
    subst hff2
    subst hwh2
    simp [translate_and_summarize, preprocess_audio_file, FS.pathExists,
      FS.write, hwo2]
  · intro hff hwh
    have hff2 : ff = true := hff
    have hwh2 : wo = true := hwh
    subst hff2
    subst hwh2
    simp [transcribe_audio, preprocess_audio_file_st, FS.read, FS.write,
      FS.pathExists, FS.remove, hwo2]
  · intro hff hwh
    have hff2 : ff = true := hff
    have hwh2 : wo = false := hwh
    subst hff2
    subst hwh2
    simp [transcribe_audio, preprocess_audio_file_st, FS.pathExists,
      FS.write, hwo2]

/-- C1 witness at concrete worlds (success path via sentinel summarizer,
and engine-failure paths in both front-ends). -/
theorem C1_witness :
    (((translate_and_summarize ⟨true, "WAV", true, "T", .requestException "d"⟩
        FS.empty "a.mp3" "" "base" "ollama-not-available").2.pathExists
        (output_wav_file "a.mp3") = false)
      ∧ ((translate_and_summarize ⟨true, "WAV", true, "T", .requestException "d"⟩
          FS.empty "a.mp3" "" "base" "ollama-not-available").2.pathExists
          "output.txt" = false))
  ∧ (((transcribe_audio ⟨true, "WAV", false, "T", .requestException "d"⟩
        FS.empty "a.mp3" "base").2.pathExists (output_wav_file "a.mp3") = true)
      ∧ ((transcribe_audio ⟨true, "WAV", false, "T", .requestException "d"⟩
          FS.empty "a.mp3" "base").2.pathExists "output.txt" = true)) := by
  constructor
  · exact (C1_cleanup_characterization ⟨true, "WAV", true, "T", .requestException "d"⟩
      FS.empty "a.mp3" "" "base" "ollama-not-available").1 rfl rfl
      ⟨sentinel_message_main "" "T", rfl⟩
  · exact (C1_cleanup_characterization ⟨true, "WAV", false, "T", .requestException "d"⟩
      FS.empty "a.mp3" "" "base" "ollama-not-available").2.2.2 rfl rfl

/-- C2 counterexample: in main.py a transcription-engine failure raises
CalledProcessError to the caller instead of returning a placeholder
transcript. -/
theorem C2_counterexample :
    (translate_and_summarize ⟨true, "WAV", false, "", .requestException "down"⟩
        FS.empty "meeting.mp3" "" "base" "llama3").1 = .error .calledProcessError :=
  rfl

/-- C2 amended: in streamlit_app.py, transcribe_audio never raises when
the engine binary or model file is unavailable: it returns a placeholder
transcript containing the requested model identifier and the base name of
the input audio file; in main.py the same failure raises
CalledProcessError out of translate_and_summarize. -/
theorem C2_engine_fallback (w : World) (fs : FS)
    (audio_file_path context whisper_model llm_model : String)
    (hff : w.ffmpegOk = true) (hwh : w.whisperOk = false) :
    ((transcribe_audio w fs audio_file_path whisper_model).1
        = .ok (some (whisper_unavailable_message audio_file_path whisper_model))
      ∧ strContains (whisper_unavailable_message audio_file_path whisper_model)
          whisper_model = true
      ∧ strContains (whisper_unavailable_message audio_file_path whisper_model)
          (basename audio_file_path) = true)
  ∧ (translate_and_summarize w fs audio_file_path context whisper_model llm_model).1
      = .error .calledProcessError := by
  obtain ⟨ff, wc, wo, wout, net⟩ := w
  have hff2 : ff = true := hff
  have hwh2 : wo = false := hwh
  subst hff2
  subst hwh2
  refine ⟨⟨?_, ?_, ?_⟩, ?_⟩
  · simp [transcribe_audio, preprocess_audio_file_st]
  · apply strContains_of_rep
    refine ⟨"🔧 **Whisper.cpp Not Available in This Deployment**\n\nThis Streamlit deployment doesn't have whisper.cpp compiled. \n\n**To enable transcription:**\n1. Deploy with a custom Docker container that builds whisper.cpp\n2. Use OpenAI Whisper API instead\n3. Use a pre-built whisper service\n\n**Audio file received:** "
        ++ basename audio_file_path ++ "\n**Model requested:** ",
      "\n\nFor a working demo, try the Railway deployment with Docker.", ?_⟩
    rw [whisper_unavailable_message]
  · apply strContains_of_rep
    refine ⟨"🔧 **Whisper.cpp Not Available in This Deployment**\n\nThis Streamlit deployment doesn't have whisper.cpp compiled. \n\n**To enable transcription:**\n1. Deploy with a custom Docker container that builds whisper.cpp\n2. Use OpenAI Whisper API instead\n3. Use a pre-built whisper service\n\n**Audio file received:** ",
      "\n**Model requested:** " ++ whisper_model
        ++ "\n\nFor a working demo, try the Railway deployment with Docker.", ?_⟩
    rw [whisper_unavailable_message]
    simp [String.append_assoc]
  · simp [translate_and_summarize, preprocess_audio_file]

/-- C2 witness at a concrete engine-failure world. -/
theorem C2_witness :
    ((transcribe_audio ⟨true, "WAV", false, "", .requestException "d"⟩
        FS.empty "dir/meeting.mp3" "base").1
        = .ok (some (whisper_unavailable_message "dir/meeting.mp3" "base"))
      ∧ strContains (whisper_unavailable_message "dir/meeting.mp3" "base") "base" = true
      ∧ strContains (whisper_unavailable_message "dir/meeting.mp3" "base")
          (basename "dir/meeting.mp3") = true)
  ∧ (translate_and_summarize ⟨true, "WAV", false, "", .requestException "d"⟩
        FS.empty "dir/meeting.mp3" "" "base" "llama3").1
      = .error .calledProcessError :=
  C2_engine_fallback ⟨true, "WAV", false, "", .requestException "d"⟩
    FS.empty "dir/meeting.mp3" "" "base" "llama3" rfl rfl

/-- After the conditional cleanup at the end of streamlit main's
processing block, transcript.txt is never present. -/
theorem pathExists_after_conditional_remove (fs3 : FS) :
    (if fs3.pathExists "transcript.txt" then fs3.remove "transcript.txt"
     else fs3).pathExists "transcript.txt" = false := by
  split
  · exact FS.pathExists_remove_self _ _
  · rename_i h
    simpa using h

/-- C7 counterexample: normalization succeeded (the normalized file was
written) but the engine failed, so main.py raised and no transcript.txt
exists when the invocation returns. -/
theorem C7_counterexample :
    ((translate_and_summarize ⟨true, "WAV", false, "", .requestException "down"⟩
        FS.empty "in.mp3" "" "base" "llama3").2.pathExists "in_converted.wav" = true)
  ∧ ((translate_and_summarize ⟨true, "WAV", false, "", .requestException "down"⟩
        FS.empty "in.mp3" "" "base" "llama3").1 = .error .calledProcessError)
  ∧ ((translate_and_summarize ⟨true, "WAV", false, "", .requestException "down"⟩
        FS.empty "in.mp3" "" "base" "llama3").2.pathExists "transcript.txt" = false) :=
  ⟨rfl, rfl, rfl⟩

/-- C7 amended: in main.py, transcript.txt exists on disk after every
invocation that returns normally (normal return entails engine success),
whatever the summarization outcome; in streamlit_app.py the handler
deletes transcript.txt again before finishing, so it is absent after
every normally returning invocation. -/
theorem C7_transcript_artifact (w : World) (fs : FS) (p c wm lm : String) :
    (∀ res, (translate_and_summarize w fs p c wm lm).1 = .ok res →
      ((translate_and_summarize w fs p c wm lm).2.pathExists "transcript.txt" = true
        ∧ res.2 = "transcript.txt"))
  ∧ (∀ out, (streamlit_process w fs p c wm lm).1 = .ok (some out) →
      (streamlit_process w fs p c wm lm).2.pathExists "transcript.txt" = false) := by
  obtain ⟨ff, wc, wo, wout, net⟩ := w
  have htw : ("transcript.txt" : String) ≠ output_wav_file p := by
    rw [output_wav_file]
    exact fun h => wav_ne_transcript (splitext p).1 h.symm
  constructor
  · intro res hres
    cases ff with
    | false =>
      simp [translate_and_summarize, preprocess_audio_file] at hres
    | true =>
      cases wo with
      | false =>
        simp [translate_and_summarize, preprocess_audio_file] at hres
      | true =>
        cases hsum : summarize_with_model net lm c wout with
        | error e =>
          simp [translate_and_summarize, preprocess_audio_file, FS.read,
            FS.write, hsum] at hres
        | ok s =>
          simp [translate_and_summarize, preprocess_audio_file, FS.read,
            FS.write, hsum] at hres ⊢
          cases hres
          refine ⟨?_, rfl⟩
          simp [FS.pathExists, FS.remove, FS.write, htw]
  · intro out hout
    cases ff with
    | false =>
      simp [streamlit_process, transcribe_audio, preprocess_audio_file_st] at hout
    | true =>
      cases wo with
      | true =>
        by_cases hwe : wout = ""
        · simp [streamlit_process, transcribe_audio, preprocess_audio_file_st,
            FS.read, FS.write, hwe] at hout
        · cases hsum : summarize_with_model_st net lm c wout with
          | error e =>
            simp [streamlit_process, transcribe_audio, preprocess_audio_file_st,
              FS.read, FS.write, hwe, hsum] at hout
          | ok s =>
            simp only [streamlit_process, transcribe_audio, preprocess_audio_file_st,
              FS.read, FS.write, ite_true, if_true]
            simp only [if_neg hwe, hsum]
            exact pathExists_after_conditional_remove _
      | false =>
        have hmsg : whisper_unavailable_message p wm ≠ "" := by
          rw [whisper_unavailable_message]
          apply append_ne_empty_left
          apply append_ne_empty_left
          apply append_ne_empty_left
          apply append_ne_empty_left
          decide
        cases hsum : summarize_with_model_st net lm c (whisper_unavailable_message p wm) with
        | error e =>
          simp [streamlit_process, transcribe_audio, preprocess_audio_file_st,
            FS.read, FS.write, hmsg, hsum] at hout
        | ok s =>
          simp only [streamlit_process, transcribe_audio, preprocess_audio_file_st,
            FS.read, FS.write, ite_true, if_true, Bool.false_eq_true, ite_false,
            if_false]
          simp only [if_neg hmsg, hsum]
          exact pathExists_after_conditional_remove _

/-- C7 witness at concrete normally-returning invocations. -/
theorem C7_witness :
    ((translate_and_summarize ⟨true, "WAV", true, "T", .requestException "d"⟩
        FS.empty "a.mp3" "" "base" "ollama-not-available").2.pathExists
        "transcript.txt" = true
      ∧ ((sentinel_message_main "" "T", "transcript.txt") : String × String).2
          = "transcript.txt")
  ∧ (streamlit_process ⟨true, "WAV", true, "T", .requestException "d"⟩
        FS.empty "a.mp3" "" "base" "ollama-not-available").2.pathExists
      "transcript.txt" = false := by
  constructor
  · exact (C7_transcript_artifact ⟨true, "WAV", true, "T", .requestException "d"⟩
      FS.empty "a.mp3" "" "base" "ollama-not-available").1
      (sentinel_message_main "" "T", "transcript.txt") rfl
  · exact (C7_transcript_artifact ⟨true, "WAV", true, "T", .requestException "d"⟩
      FS.empty "a.mp3" "" "base" "ollama-not-available").2
      (sentinel_message_st "" "T", "T") rfl

/-- C8 counterexample: in streamlit_app.py a conversion failure does not
raise: preprocess_audio_file returns None and transcribe_audio returns a
normal None result, so no failure condition propagates to the caller. -/
theorem C8_counterexample :
    (preprocess_audio_file_st ⟨false, "", true, "T", .requestException "d"⟩
        FS.empty "a.mp3").1 = none
  ∧ (transcribe_audio ⟨false, "", true, "T", .requestException "d"⟩
        FS.empty "a.mp3" "base").1 = .ok none :=
  ⟨rfl, rfl⟩

/-- C8 amended: when the transcoding tool fails, main.py raises
CalledProcessError which aborts the pipeline before transcription with
the file system untouched, while streamlit_app.py returns None from
preprocess_audio_file and transcribe_audio aborts before transcription
without raising; on success both variants return the derived
`<base>_converted.wav` path and neither mutates nor deletes the input
file. -/
theorem C8_normalization_contract (w : World) (fs : FS) (p c wm lm : String) :
    (w.ffmpegOk = false →
      (translate_and_summarize w fs p c wm lm = (.error .calledProcessError, fs)
        ∧ transcribe_audio w fs p wm = (.ok none, fs)))
  ∧ (w.ffmpegOk = true →
      ((preprocess_audio_file w fs p).1 = .ok (output_wav_file p)
        ∧ (preprocess_audio_file w fs p).2.read p = fs.read p
        ∧ (preprocess_audio_file_st w fs p).1 = some (output_wav_file p)
        ∧ (preprocess_audio_file_st w fs p).2.read p = fs.read p)) := by
  obtain ⟨ff, wc, wo, wout, net⟩ := w
  have hin : p ≠ output_wav_file p := fun h => output_wav_ne_input p h.symm
  constructor
  · intro hff
    have hff2 : ff = false := hff
    subst hff2
    constructor
    · simp [translate_and_summarize, preprocess_audio_file]
    · simp [transcribe_audio, preprocess_audio_file_st]
  · intro hff
    have hff2 : ff = true := hff
    subst hff2
    refine ⟨?_, ?_, ?_, ?_⟩
    · simp [preprocess_audio_file]
    · simp [preprocess_audio_file, FS.read, FS.write, hin]
    · simp [preprocess_audio_file_st]
    · simp [preprocess_audio_file_st, FS.read, FS.write, hin]

/-- C8 witness at concrete worlds for both the failure and the success
branch. -/
theorem C8_witness :
    (translate_and_summarize ⟨false, "", true, "T", .requestException "d"⟩
        (FS.empty.write "a.mp3" "bytes") "a.mp3" "" "base" "llama3"
        = (.error .calledProcessError, FS.empty.write "a.mp3" "bytes")
      ∧ transcribe_audio ⟨false, "", true, "T", .requestException "d"⟩
          (FS.empty.write "a.mp3" "bytes") "a.mp3" "base"
        = (.ok none, FS.empty.write "a.mp3" "bytes"))
  ∧ ((preprocess_audio_file ⟨true, "WAV", true, "T", .requestException "d"⟩
        (FS.empty.write "a.mp3" "bytes") "a.mp3").1 = .ok (output_wav_file "a.mp3")
      ∧ (preprocess_audio_file ⟨true, "WAV", true, "T", .requestException "d"⟩
          (FS.empty.write "a.mp3" "bytes") "a.mp3").2.read "a.mp3"
        = (FS.empty.write "a.mp3" "bytes").read "a.mp3"
      ∧ (preprocess_audio_file_st ⟨true, "WAV", true, "T", .requestException "d"⟩
          (FS.empty.write "a.mp3" "bytes") "a.mp3").1 = some (output_wav_file "a.mp3")
      ∧ (preprocess_audio_file_st ⟨true, "WAV", true, "T", .requestException "d"⟩
          (FS.empty.write "a.mp3" "bytes") "a.mp3").2.read "a.mp3"
        = (FS.empty.write "a.mp3" "bytes").read "a.mp3") := by
  constructor
  · exact (C8_normalization_contract ⟨false, "", true, "T", .requestException "d"⟩
      (FS.empty.write "a.mp3" "bytes") "a.mp3" "" "base" "llama3").1 rfl
  · exact (C8_normalization_contract ⟨true, "WAV", true, "T", .requestException "d"⟩
      (FS.empty.write "a.mp3" "bytes") "a.mp3" "" "base" "llama3").2 rfl

/-- C3 counterexample: the first frame carries the fragment "A\nB"
(written with a JSON escape), the second line is not JSON.  The
parse-failure return embeds only the raw body; the fragment accumulated
before the failure does not occur anywhere in the returned string, so the
accumulated text is not included, contrary to the claim. -/
theorem C3_counterexample :
    summarize_with_model
        (.response ⟨200,
          ["\x7b\"response\": \"A\\nB\", \"done\": false\x7d", "oops"],
          "\x7b\"response\": \"A\\nB\", \"done\": false\x7d\noops"⟩)
        "llama3" "c" "t"
      = .ok (parse_error_message "\x7b\"response\": \"A\\nB\", \"done\": false\x7d\noops")
  ∧ accumLoop ["\x7b\"response\": \"A\\nB\", \"done\": false\x7d"] "" = .ok "A\nB"
  ∧ strContains
      (parse_error_message "\x7b\"response\": \"A\\nB\", \"done\": false\x7d\noops")
      "A\nB" = false := by
  refine ⟨rfl, rfl, by decide⟩

/-- C3 amended: when the accumulation loop hits a line that fails to
parse as JSON, summarize_with_model does not raise in either front-end:
it stops and returns the fixed explanatory message embedding the raw
response body, discarding the fragments accumulated before the failure. -/
theorem C3_parse_failure_returns_raw (r : HTTPResponse) (llm context text : String)
    (hm : llm ≠ "ollama-not-available") (h200 : r.status_code = 200)
    (hp : accumLoop r.body_lines "" = .error .jsonDecodeError) :
    summarize_with_model (.response r) llm context text
        = .ok (parse_error_message r.text)
  ∧ summarize_with_model_st (.response r) llm context text
        = .ok (parse_error_message r.text)
  ∧ strContains (parse_error_message r.text) r.text = true := by
  refine ⟨?_, ?_, ?_⟩
  · rw [summarize_with_model, if_neg hm]
    simp [h200, hp]
  · rw [summarize_with_model_st, if_neg hm]
    simp [h200, hp]
  · apply strContains_of_rep
    refine ⟨"Failed to parse the response from the server. Raw response: ", "", ?_⟩
    rw [parse_error_message, String.append_empty]

/-- C3 witness at a concrete malformed stream. -/
theorem C3_witness :
    summarize_with_model (.response ⟨200, ["oops"], "oops"⟩) "llama3" "c" "t"
        = .ok (parse_error_message "oops")
  ∧ summarize_with_model_st (.response ⟨200, ["oops"], "oops"⟩) "llama3" "c" "t"
        = .ok (parse_error_message "oops")
  ∧ strContains (parse_error_message "oops") "oops" = true :=
  C3_parse_failure_returns_raw ⟨200, ["oops"], "oops"⟩ "llama3" "c" "t"
    (by decide) rfl rfl

/-- C6 counterexample: an HTTP 200 response whose frame stream contributes
no text makes summarize_with_model return the empty string, so the summary
handed to the pipeline is not always non-empty. -/
theorem C6_counterexample :
    summarize_with_model (.response ⟨200, [], ""⟩) "llama3" "c" "t" = .ok "" :=
  rfl

/-- C6 amended: the summary returned by summarize_with_model is non-empty
on the sentinel path, the connection-failure path, the non-success-status
path and the parse-failure path; on an HTTP 200 response it is exactly the
accumulated fragment concatenation, which is empty when the stream
contributes no text. -/
theorem C6_summary_nonempty_characterization
    (net : NetOutcome) (r : HTTPResponse) (llm context text e : String) :
    (∃ s, summarize_with_model net "ollama-not-available" context text = .ok s ∧ s ≠ "")
  ∧ (llm ≠ "ollama-not-available" →
      ∃ s, summarize_with_model (.requestException e) llm context text = .ok s ∧ s ≠ "")
  ∧ (llm ≠ "ollama-not-available" → r.status_code ≠ 200 →
      ∃ s, summarize_with_model (.response r) llm context text = .ok s ∧ s ≠ "")
  ∧ (llm ≠ "ollama-not-available" → r.status_code = 200 →
      accumLoop r.body_lines "" = .error .jsonDecodeError →
      ∃ s, summarize_with_model (.response r) llm context text = .ok s ∧ s ≠ "")
  ∧ (∀ acc, llm ≠ "ollama-not-available" → r.status_code = 200 →
      accumLoop r.body_lines "" = .ok acc →
      summarize_with_model (.response r) llm context text = .ok acc) := by
  refine ⟨?_, ?_, ?_, ?_, ?_⟩
  · refine ⟨sentinel_message_main context text, rfl, ?_⟩
    apply append_ne_empty_left
    apply append_ne_empty_left
    rw [sentinel_preamble_main]
    apply append_ne_empty_left
    apply append_ne_empty_left
    decide
  · intro hm
    refine ⟨connect_error_message e, ?_, ?_⟩
    · rw [summarize_with_model, if_neg hm]
    · rw [connect_error_message]
      apply append_ne_empty_left
      apply append_ne_empty_left
      decide
  · intro hm hs
    refine ⟨server_error_message llm r.text, ?_, ?_⟩
    · rw [summarize_with_model, if_neg hm]
      simp [hs]
    · rw [server_error_message]
      apply append_ne_empty_left
      apply append_ne_empty_left
      apply append_ne_empty_left
      apply append_ne_empty_left
      decide
  · intro hm hs hp
    refine ⟨parse_error_message r.text, ?_, ?_⟩
    · rw [summarize_with_model, if_neg hm]
      simp [hs, hp]
    · rw [parse_error_message]
      apply append_ne_empty_left
      decide
  · intro acc hm hs hacc
    rw [summarize_with_model, if_neg hm]
    simp [hs, hacc]

/-- C6 witness at concrete failing worlds. -/
theorem C6_witness :
    (∃ s, summarize_with_model (.requestException "down") "llama3" "c" "t" = .ok s ∧ s ≠ "")
  ∧ (∃ s, summarize_with_model (.response ⟨500, [], "err"⟩) "llama3" "c" "t" = .ok s ∧ s ≠ "")
  ∧ (∃ s, summarize_with_model (.response ⟨200, ["oops"], "oops"⟩) "llama3" "c" "t"
        = .ok s ∧ s ≠ "") := by
  refine ⟨?_, ?_, ?_⟩
  · exact (C6_summary_nonempty_characterization (.requestException "down") ⟨500, [], "err"⟩
      "llama3" "c" "t" "down").2.1 (by decide)
  · exact (C6_summary_nonempty_characterization (.requestException "down") ⟨500, [], "err"⟩
      "llama3" "c" "t" "down").2.2.1 (by decide) (by decide)
  · exact (C6_summary_nonempty_characterization (.requestException "down") ⟨200, ["oops"], "oops"⟩
      "llama3" "c" "t" "down").2.2.2.1 (by decide) rfl rfl

/-- Whether a parsed object's "response" value, if present, is a string,
so that `full_response += json_line.get("response", "")` cannot raise. -/
def respIsStr (kvs : List (String × JValue)) : Bool :=
  match jget kvs "response" with
  | none => true
  | some (.str _) => true
  | some _ => false

/-- Whether one stream line is harmless for the accumulation loop: blank,
or parsing to a JSON object whose "response" value is absent or a string. -/
def lineOk (l : String) : Bool :=
  if l = "" then true
  else
    match json_loads l with
    | some (.obj kvs) => respIsStr kvs
    | _ => false

/-- Totality of the accumulation loop on streams of harmless lines. -/
theorem accumLoop_total (lines : List String) (acc : String)
    (h : lines.all lineOk = true) : ∃ s, accumLoop lines acc = .ok s := by
  induction lines generalizing acc with
  | nil => exact ⟨acc, rfl⟩
  | cons l rest ih =>
    rw [List.all_cons, Bool.and_eq_true] at h
    obtain ⟨hl, hrest⟩ := h
    by_cases hblank : l = ""
    · subst hblank
      rw [show accumLoop ("" :: rest) acc = accumLoop rest acc from by simp [accumLoop]]
      exact ih acc hrest
    · rw [lineOk, if_neg hblank] at hl
      rw [accumLoop]
      rw [if_neg hblank]
      cases hj : json_loads l with
      | none => rw [hj] at hl; simp at hl
      | some v =>
        rw [hj] at hl
        cases v with
        | obj kvs =>
          simp only at hl
          rw [respIsStr] at hl
          cases hr : jget kvs "response" with
          | none =>
            simp only [hr]
            cases hd : jget kvs "done" with
            | none => exact ih acc hrest
            | some dv =>
              by_cases ht : truthy dv = true
              · simp [ht]
              · rw [Bool.not_eq_true] at ht
                simp only [ht, Bool.false_eq_true, if_false]
                exact ih acc hrest
          | some v2 =>
            rw [hr] at hl
            cases v2 with
            | str s =>
              simp only [hr]
              cases hd : jget kvs "done" with
              | none => exact ih (acc ++ s) hrest
              | some dv =>
                by_cases ht : truthy dv = true
                · simp [ht]
                · rw [Bool.not_eq_true] at ht
                  simp only [ht, Bool.false_eq_true, if_false]
                  exact ih (acc ++ s) hrest
            | null => simp at hl
            | bool b => simp at hl
            | num raw => simp at hl
            | arr elems => simp at hl
            | obj members => simp at hl
        | null => simp at hl
        | bool b => simp at hl
        | num raw => simp at hl
        | str s => simp at hl
        | arr elems => simp at hl

/-- C10 counterexample: the line "5" parses as JSON, yet the loop raises
AttributeError at `.get` on the parsed integer, and the exception escapes
summarize_with_model, so the loop is not total on all JSON streams. -/
theorem C10_counterexample :
    json_loads "5" = some (.num "5")
  ∧ accumLoop ["5"] "" = .error .attributeError
  ∧ summarize_with_model (.response ⟨200, ["5"], "5"⟩) "llama3" "c" "t"
      = .error .attributeError :=
  ⟨rfl, rfl, rfl⟩

/-- C10 amended: the accumulation loop is total and raises nothing on
every stream whose non-blank lines parse as JSON objects whose "response"
value, when present, is a string; blank lines are skipped before parsing,
a frame lacking "response" contributes the empty string, and a frame
lacking "done" is treated as not terminal. -/
theorem C10_loop_behavior (lines : List String) (acc : String)
    (h : lines.all lineOk = true) :
    (∃ s, accumLoop lines acc = .ok s)
  ∧ (∀ rest acc2, accumLoop ("" :: rest) acc2 = accumLoop rest acc2)
  ∧ (∀ l rest acc2 kvs, l ≠ "" → json_loads l = some (.obj kvs) →
      jget kvs "response" = none → jget kvs "done" = none →
      accumLoop (l :: rest) acc2 = accumLoop rest acc2)
  ∧ (∀ l rest acc2 kvs s, l ≠ "" → json_loads l = some (.obj kvs) →
      jget kvs "response" = some (.str s) → jget kvs "done" = none →
      accumLoop (l :: rest) acc2 = accumLoop rest (acc2 ++ s)) := by
  refine ⟨accumLoop_total lines acc h, ?_, ?_, ?_⟩
  · intro rest acc2
    simp [accumLoop]
  · intro l rest acc2 kvs hne hj hr hd
    rw [accumLoop, if_neg hne, hj]
    simp only [hr, hd]
  · intro l rest acc2 kvs s hne hj hr hd
    rw [accumLoop, if_neg hne, hj]
    simp only [hr, hd]

/-- C10 witness on a concrete harmless stream. -/
theorem C10_witness :
    ∃ s, accumLoop ["\x7b\"done\":false\x7d", "", "\x7b\"response\":\"x\"\x7d"] "" = .ok s :=
  (C10_loop_behavior ["\x7b\"done\":false\x7d", "", "\x7b\"response\":\"x\"\x7d"] ""
    (by decide)).1

/-- C9 witness at a concrete 500 response. -/
theorem C9_witness :
    summarize_with_model (.response ⟨500, [], "boom"⟩) "llama3" "c" "t"
        = .ok (server_error_message "llama3" "boom")
  ∧ summarize_with_model_st (.response ⟨500, [], "boom"⟩) "llama3" "c" "t"
        = .ok (server_error_message "llama3" "boom")
  ∧ strContains (server_error_message "llama3" "boom") "boom" = true
  ∧ strContains (server_error_message "llama3" "boom")
      "Transcript is still available for download below." = true :=
  C9_http_error_embedded ⟨500, [], "boom"⟩ "llama3" "c" "t" (by decide) (by decide)

end Recapify
